import Mathlib

/-!
Verification of the session-supervisor module of mautrix-twitter
(src/mautrix_twitter/user.py) against its natural-language specification.

The Python class `User` is shallowly embedded as pure Lean functions over an
explicit world state.  Session objects have reference identity, so the world
holds a heap mapping session ids to session records; connection handles
(`TwitterAPI` objects) likewise live in a client store so that a handle that
is dropped without being stopped remains observable.  The two process-wide
caches `by_mxid` and `by_twid` and the persistence table are association
lists keyed by natural numbers (Matrix user ids, Twitter ids and tokens are
modelled as naturals; Python `None` is `Option.none`).
-/

namespace MautrixTwitter

/-- Association-list lookup, mirroring Python dict indexing. -/
def lookupA {α : Type} (l : List (Nat × α)) (k : Nat) : Option α :=
  match l with
  | [] => none
  | (k', v) :: t => if k' = k then some v else lookupA t k

/-- Association-list insert-or-replace, mirroring Python dict assignment. -/
def insertA {α : Type} (l : List (Nat × α)) (k : Nat) (v : α) : List (Nat × α) :=
  match l with
  | [] => [(k, v)]
  | (k', v') :: t => if k' = k then (k, v) :: t else (k', v') :: insertA t k v

/-- Association-list key removal, mirroring Python dict `del`. -/
def eraseA {α : Type} (l : List (Nat × α)) (k : Nat) : List (Nat × α) :=
  l.filter (fun p => p.1 ≠ k)

/-- Python truthiness of an optional number: `None`, `0` and the empty
string are falsy; the model collapses the latter two onto `some 0`. -/
def optTruthy (o : Option Nat) : Bool :=
  match o with
  | none => false
  | some n => n ≠ 0

/-- Python `a or b` on optional values: `a` when truthy, otherwise `b`. -/
def pyOr (a b : Option Nat) : Option Nat :=
  if optTruthy a then a else b

/-- The five event kinds registered by `connect` via `add_handler`. -/
inductive HandlerKind where
  | conversation
  | user
  | message
  | reactionCreate
  | reactionDelete
deriving DecidableEq, Repr

/-- Model of a `TwitterAPI` connection handle: the tokens and cursor given
to it, the handlers registered on it, and whether `start` / `stop` have
been called on it. -/
structure Client where
  authToken : Option Nat
  csrfToken : Option Nat
  pollCursor : Option Nat
  handlers : List HandlerKind
  started : Bool
  stopped : Bool
deriving DecidableEq, Repr

/-- Model of one `User` object (a Session): the persisted columns plus the
in-memory `client` reference (an id into the client store) and `username`. -/
structure Session where
  mxid : Nat
  twid : Option Nat
  authToken : Option Nat
  csrfToken : Option Nat
  pollCursor : Option Nat
  noticeRoom : Option Nat
  client : Option Nat
  username : Option Nat
deriving DecidableEq, Repr

/-- Modelled from the spec: the persisted record per Session, keyed uniquely
by the local id (`mxid`); the persistence layer itself (mautrix_twitter.db)
is not part of the supervised source file. -/
structure DBRec where
  mxid : Nat
  twid : Option Nat
  authToken : Option Nat
  csrfToken : Option Nat
  pollCursor : Option Nat
  noticeRoom : Option Nat
deriving DecidableEq, Repr

/-- Projection of a Session onto its persisted columns. -/
def Session.toDBRec (s : Session) : DBRec :=
  ⟨s.mxid, s.twid, s.authToken, s.csrfToken, s.pollCursor, s.noticeRoom⟩

/-- Deserialization of a persisted row into a fresh Session object; as in
`User.__init__`, the in-memory fields start out as `None`. -/
def recToSession (r : DBRec) : Session :=
  ⟨r.mxid, r.twid, r.authToken, r.csrfToken, r.pollCursor, r.noticeRoom, none, none⟩

/-- A brand-new Session, as constructed by `User(mxid)` in `get_by_mxid`. -/
def newSession (mxid : Nat) : Session :=
  ⟨mxid, none, none, none, none, none, none, none⟩

/-- Process-wide state: the session heap (reference identity), the client
store, the two registry caches `by_mxid` and `by_twid`, the persistence
table, and allocation counters. -/
structure World where
  heap : List (Nat × Session)
  clients : List (Nat × Client)
  byMxid : List (Nat × Nat)
  byTwid : List (Nat × Nat)
  db : List DBRec
  nextSession : Nat
  nextClient : Nat
deriving DecidableEq, Repr

def defaultSession : Session := newSession 0

def defaultClient : Client := ⟨none, none, none, [], false, false⟩

def heapGet (w : World) (sid : Nat) : Session :=
  (lookupA w.heap sid).getD defaultSession

def heapSet (w : World) (sid : Nat) (s : Session) : World :=
  { w with heap := insertA w.heap sid s }

def clientGet (w : World) (cid : Nat) : Client :=
  (lookupA w.clients cid).getD defaultClient

def clientModify (w : World) (cid : Nat) (f : Client → Client) : World :=
  { w with clients := insertA w.clients cid (f (clientGet w cid)) }

/-- Modelled from the spec: persistence update of the record whose key is
the Session's local id (`await super().update()`). -/
def dbUpdate (db : List DBRec) (s : Session) : List DBRec :=
  db.map (fun r => if r.mxid = s.mxid then s.toDBRec else r)

/-- Modelled from the spec: persistence insert of a new record
(`await user.insert()`). -/
def dbInsert (db : List DBRec) (s : Session) : List DBRec :=
  s.toDBRec :: db

/-- Modelled from the spec: persistence lookup by local id
(`await super().get_by_mxid(mxid)`). -/
def dbGetByMxid (db : List DBRec) (m : Nat) : Option DBRec :=
  db.find? (fun r => r.mxid = m)

/-- Modelled from the spec: persistence lookup through the secondary index
by remote id (`await super().get_by_twid(twid)`). -/
def dbGetByTwid (db : List DBRec) (t : Nat) : Option DBRec :=
  db.find? (fun r => r.twid = some t)

/-- Modelled from the spec: the persistence scan behind
`super().all_logged_in()`, returning every stored record with non-empty
credentials. -/
def dbAllWithCredentials (db : List DBRec) : List DBRec :=
  db.filter (fun r => r.authToken.isSome && r.csrfToken.isSome)

/-- Result value of `is_logged_in`: the Python body can return `None`
(short-circuited `self.client and ...` with `self.client is None`) or a
boolean. -/
inductive PyBoolVal where
  | vNone
  | vBool (b : Bool)
deriving DecidableEq, Repr

/-- Python truthiness of an `is_logged_in` result. -/
def PyBoolVal.truthy : PyBoolVal → Bool
  | .vNone => false
  | .vBool b => b

/-- The remote-service collaborator (mautwitdm `TwitterAPI` calls):
`probe` models `get_user_identifier()` for given tokens (`Except.error` is
a raised exception, `Except.ok` its return value, itself possibly `None`);
`screenName` models `get_settings()["screen_name"]`; `lookup` models
`lookup_users(usernames=[u])[0].id`. -/
structure Remote where
  probe : Option Nat → Option Nat → Except Unit (Option Nat)
  screenName : Nat
  lookup : Nat → Nat

/-- External calls made by `connect`, recorded as a trace. -/
inductive ExtCall where
  | probeCall
  | getSettings
  | lookupUsers (username : Nat)
  | startStream
deriving DecidableEq, Repr

/-- Model of `User.update`: if a client is attached, copy its tokens and
cursor into the Session fields, then persist the record. -/
def update (w : World) (sid : Nat) : World :=
  let s := heapGet w sid
  let s' :=
    match s.client with
    | some cid =>
      let c := clientGet w cid
      { s with authToken := c.authToken, csrfToken := c.csrfToken,
               pollCursor := c.pollCursor }
    | none => s
  let w1 := heapSet w sid s'
  { w1 with db := dbUpdate w1.db s' }

/-- Model of `User.is_logged_in`: `self.client and await
self.client.get_user_identifier() is not None`, with any exception caught
and turned into `False`. -/
def is_logged_in (rem : Remote) (w : World) (sid : Nat) : PyBoolVal :=
  let s := heapGet w sid
  match s.client with
  | none => .vNone
  | some cid =>
    let c := clientGet w cid
    match rem.probe c.authToken c.csrfToken with
    | .error _ => .vBool false
    | .ok v => .vBool v.isSome

/-- Model of `User.connect`: build a fresh client from the override-or-stored
tokens and the stored cursor, probe the identity (a raised error leaves the
world untouched), then attach the client, register the five handlers, fetch
the screen name, bind `twid` through a user lookup only when it is unset
(inserting the binding into `by_twid`), persist via `update`, and start the
stream.  Returns (raised, world, external-call trace). -/
def connect (rem : Remote) (w : World) (sid : Nat)
    (authTok csrfTok : Option Nat) : Bool × World × List ExtCall :=
  let s := heapGet w sid
  let tok := pyOr authTok s.authToken
  let ctok := pyOr csrfTok s.csrfToken
  match rem.probe tok ctok with
  | .error _ => (true, w, [.probeCall])
  | .ok _ =>
    let cid := w.nextClient
    let c1 : Client :=
      ⟨tok, ctok, s.pollCursor,
       [.conversation, .user, .message, .reactionCreate, .reactionDelete],
       false, false⟩
    let w1 := { w with clients := insertA w.clients cid c1,
                       nextClient := cid + 1 }
    let s1 := { s with client := some cid, username := some rem.screenName }
    let w2 := heapSet w1 sid s1
    if optTruthy s1.twid then
      let w3 := update w2 sid
      let w4 := clientModify w3 cid (fun c => { c with started := true })
      (false, w4, [.probeCall, .getSettings, .startStream])
    else
      let newTwid := rem.lookup rem.screenName
      let s2 := { s1 with twid := some newTwid }
      let w3 := heapSet w2 sid s2
      let w4 := { w3 with byTwid := insertA w3.byTwid newTwid sid }
      let w5 := update w4 sid
      let w6 := clientModify w5 cid (fun c => { c with started := true })
      (false, w6, [.probeCall, .getSettings, .lookupUsers rem.screenName,
                   .startStream])

/-- Model of `User.stop`: stop the client if one is attached (the reference
itself is kept), then persist via `update`. -/
def stop (w : World) (sid : Nat) : World :=
  let s := heapGet w sid
  let w1 :=
    match s.client with
    | some cid => clientModify w cid (fun c => { c with stopped := true })
    | none => w
  update w1 sid

/-- A real-user puppet as seen by `logout`. -/
structure Puppet where
  isRealUser : Bool
deriving DecidableEq, Repr

/-- The puppet-resolver collaborator used by `logout`: `getPuppet` models
`pu.Puppet.get_by_twid(self.twid, create=False)` and `switchRaises` tells
whether `puppet.switch_mxid(None, None)` raises. -/
structure PuppetEnv where
  getPuppet : Option Nat → Option Puppet
  switchRaises : Bool

/-- Whether the puppet-release step of `logout` raises: there is a puppet
for the Session's twid, it is a real-user puppet, and `switch_mxid` raises. -/
def logoutRaises (env : PuppetEnv) (s : Session) : Bool :=
  match env.getPuppet s.twid with
  | some p => p.isRealUser && env.switchRaises
  | none => false

/-- The field-clearing step of `logout`: client, twid, cursor and both
tokens are set to `None`. -/
def clearSession (s : Session) : Session :=
  { s with client := none, twid := none, pollCursor := none,
           authToken := none, csrfToken := none }

/-- Model of `User.logout`: stop any attached client, attempt the
real-user-puppet release (an exception there propagates, aborting the rest),
delete the `by_twid` entry tolerating its absence, clear client, twid,
cursor and both tokens, and persist.  Returns (raised, world). -/
def logout (env : PuppetEnv) (w : World) (sid : Nat) : Bool × World :=
  let s := heapGet w sid
  let w1 :=
    match s.client with
    | some cid => clientModify w cid (fun c => { c with stopped := true })
    | none => w
  if logoutRaises env s then (true, w1)
  else
    let w2 :=
      match s.twid with
      | some t => { w1 with byTwid := eraseA w1.byTwid t }
      | none => w1
    let w3 := heapSet w2 sid (clearSession s)
    (false, update w3 sid)

/-- Model of `User._add_to_cache`: register the Session under its mxid and,
when `twid` is truthy, under its twid. -/
def addToCache (w : World) (sid : Nat) : World :=
  let s := heapGet w sid
  let w1 := { w with byMxid := insertA w.byMxid s.mxid sid }
  if optTruthy s.twid then
    { w1 with byTwid := insertA w1.byTwid (s.twid.getD 0) sid }
  else w1

/-- Model of `User.get_by_mxid`: cache hit, else persistence lookup (cached
on success), else — when `create` is set — construct, insert, cache and
return a new Session. -/
def get_by_mxid (w : World) (m : Nat) (create : Bool) : Option Nat × World :=
  match lookupA w.byMxid m with
  | some sid => (some sid, w)
  | none =>
    match dbGetByMxid w.db m with
    | some rec =>
      let sid := w.nextSession
      let w1 := { w with heap := insertA w.heap sid (recToSession rec),
                         nextSession := sid + 1 }
      (some sid, addToCache w1 sid)
    | none =>
      if create then
        let sid := w.nextSession
        let s := newSession m
        let w1 := { w with heap := insertA w.heap sid s,
                           nextSession := sid + 1,
                           db := dbInsert w.db s }
        (some sid, addToCache w1 sid)
      else (none, w)

/-- Model of `User.get_by_twid`: cache hit, else persistence lookup through
the secondary index (cached on success); never creates. -/
def get_by_twid (w : World) (t : Nat) : Option Nat × World :=
  match lookupA w.byTwid t with
  | some sid => (some sid, w)
  | none =>
    match dbGetByTwid w.db t with
    | some rec =>
      let sid := w.nextSession
      let w1 := { w with heap := insertA w.heap sid (recToSession rec),
                         nextSession := sid + 1 }
      (some sid, addToCache w1 sid)
    | none => (none, w)

/-- Fresh deserialization performed by `super().all_logged_in()`: one new
Session object per returned row. -/
def allocRows (w : World) (rows : List DBRec) : List Nat × World :=
  match rows with
  | [] => ([], w)
  | r :: t =>
    let sid := w.nextSession
    let w1 := { w with heap := insertA w.heap sid (recToSession r),
                       nextSession := sid + 1 }
    let p := allocRows w1 t
    (sid :: p.1, p.2)

/-- The replacement loop of `User.all_logged_in`: each freshly deserialized
Session is replaced by the cached instance when one exists, and cached
otherwise. -/
def allLoggedInLoop (w : World) (sids : List Nat) : List Nat × World :=
  match sids with
  | [] => ([], w)
  | sid :: t =>
    match lookupA w.byMxid (heapGet w sid).mxid with
    | some cachedSid =>
      let p := allLoggedInLoop w t
      (cachedSid :: p.1, p.2)
    | none =>
      let w1 := addToCache w sid
      let p := allLoggedInLoop w1 t
      (sid :: p.1, p.2)

/-- Model of `User.all_logged_in`: scan the persistence table for records
with credentials, deserialize them freshly, then run the cache-preference
loop. -/
def all_logged_in (w : World) : List Nat × World :=
  let p := allocRows w (dbAllWithCredentials w.db)
  allLoggedInLoop p.2 p.1

/-- A portal as seen by `handle_message`: only its Matrix room id matters. -/
structure Portal where
  mxid : Option Nat
deriving DecidableEq, Repr

/-- The portal-resolver collaborator: `po.Portal.get_by_twid(conversation_id,
self.twid, conv_type)`. -/
structure PortalEnv where
  getPortal : Nat → Option Nat → Nat → Portal

/-- A message event: `conversation_id`, `conversation.type`, `message_data`
and `request_id`. -/
structure MessageEntry where
  conversationId : Nat
  convType : Nat
  messageData : Nat
  requestId : Nat
deriving DecidableEq, Repr

/-- Calls issued against the portal collaborators by `handle_message`. -/
inductive PortalCall where
  | getByTwid (conv : Nat) (owner : Option Nat) (ctype : Nat)
  | createRoom (conv : Nat)
  | handleMsg (msgData : Nat) (reqId : Nat)
deriving DecidableEq, Repr

/-- Model of `User.handle_message`: resolve the portal by (conversation id,
own twid, conversation type), create a Matrix room only when the portal has
none, then forward the message data with its request id. -/
def handle_message (env : PortalEnv) (s : Session) (evt : MessageEntry) :
    List PortalCall :=
  let portal := env.getPortal evt.conversationId s.twid evt.convType
  [.getByTwid evt.conversationId s.twid evt.convType]
    ++ (if portal.mxid.isSome then [] else [.createRoom evt.conversationId])
    ++ [.handleMsg evt.messageData evt.requestId]

/-! Concrete fixtures used by witnesses and counterexamples. -/

/-- A Session bound to twid 555 with a live client (id 0). -/
def s0 : Session := ⟨1, some 555, some 10, some 11, some 7, none, some 0, some 20⟩

/-- The live client attached to `s0`: started, not stopped. -/
def c0 : Client :=
  ⟨some 10, some 11, some 7,
   [.conversation, .user, .message, .reactionCreate, .reactionDelete],
   true, false⟩

/-- A world with one connected Session (id 0), both caches populated, and
its persisted row. -/
def w0 : World :=
  ⟨[(0, s0)], [(0, c0)], [(1, 0)], [(555, 0)],
   [⟨1, some 555, some 10, some 11, some 7, none⟩], 1, 1⟩

/-- A world with one never-connected Session cached by mxid only. -/
def wDisc : World := ⟨[(0, newSession 1)], [], [(1, 0)], [], [], 1, 0⟩

/-- A world whose registry caches are empty but whose persistence table has
one row. -/
def wDbOnly : World :=
  ⟨[], [], [], [], [⟨1, some 555, some 10, some 11, some 7, none⟩], 0, 0⟩

/-- A completely empty world. -/
def wEmpty : World := ⟨[], [], [], [], [], 0, 0⟩

/-- A remote service accepting any credentials. -/
def remOk : Remote := ⟨fun _ _ => .ok (some 555), 20, fun _ => 555⟩

/-- A remote service whose identity probe always raises. -/
def remBad : Remote := ⟨fun _ _ => .error (), 20, fun _ => 555⟩

/-- A puppet environment with a real-user puppet whose release raises. -/
def envRaise : PuppetEnv := ⟨fun _ => some ⟨true⟩, true⟩

/-- A puppet environment with a real-user puppet whose release succeeds. -/
def envOk : PuppetEnv := ⟨fun _ => some ⟨true⟩, false⟩

/-- A portal resolver always answering with a room-less portal. -/
def portalRoomless : PortalEnv := ⟨fun _ _ _ => ⟨none⟩⟩

/-- A portal resolver always answering with a portal that has room 5. -/
def portalWithRoom : PortalEnv := ⟨fun _ _ _ => ⟨some 5⟩⟩

/-- A sample message event. -/
def evt0 : MessageEntry := ⟨77, 1, 88, 99⟩

/-! Association-list lemmas. -/

theorem lookupA_insertA_self {α : Type} (l : List (Nat × α)) (k : Nat) (v : α) :
    lookupA (insertA l k v) k = some v := by
  induction l with
  | nil => simp [insertA, lookupA]
  | cons hd t ih =>
    obtain ⟨k', v'⟩ := hd
    by_cases hk : k' = k
    · simp [insertA, hk, lookupA]
    · simp [insertA, hk, lookupA, ih]

theorem lookupA_insertA_ne {α : Type} (l : List (Nat × α)) (k k' : Nat) (v : α)
    (h : k' ≠ k) : lookupA (insertA l k v) k' = lookupA l k' := by
  induction l with
  | nil => simp [insertA, lookupA, Ne.symm h]
  | cons hd t ih =>
    obtain ⟨k₀, v₀⟩ := hd
    by_cases hk : k₀ = k
    · subst hk
      simp [insertA, lookupA, Ne.symm h]
    · simp [insertA, lookupA, hk, ih]

theorem insertA_insertA {α : Type} (l : List (Nat × α)) (k : Nat) (v v' : α) :
    insertA (insertA l k v) k v' = insertA l k v' := by
  induction l with
  | nil => simp [insertA]
  | cons hd t ih =>
    obtain ⟨k₀, v₀⟩ := hd
    by_cases hk : k₀ = k
    · simp [insertA, hk]
    · simp [insertA, hk, ih]

theorem eraseA_cons_self {α : Type} (t : List (Nat × α)) (k : Nat) (v : α) :
    eraseA ((k, v) :: t) k = eraseA t k := by
  simp [eraseA, List.filter_cons]

theorem eraseA_cons_ne {α : Type} (t : List (Nat × α)) (k k₀ : Nat) (v : α)
    (h : k₀ ≠ k) : eraseA ((k₀, v) :: t) k = (k₀, v) :: eraseA t k := by
  simp [eraseA, List.filter_cons, h]

theorem lookupA_eraseA_self {α : Type} (l : List (Nat × α)) (k : Nat) :
    lookupA (eraseA l k) k = none := by
  induction l with
  | nil => simp [eraseA, lookupA]
  | cons hd t ih =>
    obtain ⟨k₀, v₀⟩ := hd
    by_cases hk : k₀ = k
    · subst hk
      rw [eraseA_cons_self]
      exact ih
    · rw [eraseA_cons_ne t k k₀ v₀ hk]
      simpa [lookupA, hk] using ih

theorem lookupA_eraseA_ne {α : Type} (l : List (Nat × α)) (k k' : Nat)
    (h : k' ≠ k) : lookupA (eraseA l k) k' = lookupA l k' := by
  induction l with
  | nil => simp [eraseA, lookupA]
  | cons hd t ih =>
    obtain ⟨k₀, v₀⟩ := hd
    by_cases hk : k₀ = k
    · subst hk
      rw [eraseA_cons_self]
      simp [lookupA, Ne.symm h, ih]
    · rw [eraseA_cons_ne t k k₀ v₀ hk]
      simp [lookupA, ih]

theorem dbUpdate_idem (db : List DBRec) (s : Session) :
    dbUpdate (dbUpdate db s) s = dbUpdate db s := by
  induction db with
  | nil => simp [dbUpdate]
  | cons r t ih =>
    by_cases hr : r.mxid = s.mxid
    · simpa [dbUpdate, hr, Session.toDBRec] using ih
    · simpa [dbUpdate, hr] using ih

/-! Characterization lemmas for `logout`. -/

theorem logout_raise_char (env : PuppetEnv) (w : World) (sid : Nat)
    (s : Session) (hs : lookupA w.heap sid = some s)
    (hr : logoutRaises env s = true) :
    (logout env w sid).1 = true ∧
    heapGet (logout env w sid).2 sid = s ∧
    (logout env w sid).2.byTwid = w.byTwid ∧
    (logout env w sid).2.byMxid = w.byMxid ∧
    (logout env w sid).2.db = w.db := by
  have hG : heapGet w sid = s := by simp [heapGet, hs]
  rcases hc : s.client with _ | cid <;>
    simp [logout, hG, hc, hr, clientModify, heapGet, hs]

theorem logout_ok_char (env : PuppetEnv) (w : World) (sid : Nat)
    (s : Session) (hs : lookupA w.heap sid = some s)
    (hr : logoutRaises env s = false) :
    (logout env w sid).1 = false ∧
    heapGet (logout env w sid).2 sid = clearSession s ∧
    (∀ t, s.twid = some t →
      lookupA (logout env w sid).2.byTwid t = none) ∧
    (logout env w sid).2.db = dbUpdate w.db (clearSession s) := by
  have hG : heapGet w sid = s := by simp [heapGet, hs]
  rcases hc : s.client with _ | cid <;> rcases ht : s.twid with _ | t <;>
    simp [logout, hs, hG, hc, hr, ht, clientModify, update, heapSet, heapGet,
          clearSession, lookupA_insertA_self, insertA_insertA,
          lookupA_eraseA_self]

/-! Claim theorems. -/

/-- C3: whenever the identity probe raises for the effective credential
pair, `connect` fails (raised = true) and mutates nothing: the returned
world is exactly the input world, so the connection handle, `twid`, tokens,
cursor, and both registry mappings are all unchanged, and only the probe
was attempted. -/
theorem connect_probe_error_leaves_state_unchanged
    (rem : Remote) (w : World) (sid : Nat) (a c : Option Nat)
    (h : rem.probe (pyOr a (heapGet w sid).authToken)
          (pyOr c (heapGet w sid).csrfToken) = .error ()) :
    connect rem w sid a c = (true, w, [.probeCall]) := by
  simp [connect, h]

/-- Witness for C3: the invalid-credentials remote on the connected world
leaves the world untouched. -/
theorem connect_probe_error_witness :
    connect remBad w0 0 none none = (true, w0, [.probeCall]) :=
  connect_probe_error_leaves_state_unchanged remBad w0 0 none none rfl

/-- C10: with no client attached, `is_logged_in` returns Python `None`
(the short-circuited left operand of `and`), which is falsy but not the
boolean `False`; and when the identity probe raises, the exception is
caught and the boolean `False` is returned. -/
theorem is_logged_in_none_and_catches
    (rem : Remote) (w : World) (sid : Nat) :
    ((heapGet w sid).client = none →
      is_logged_in rem w sid = PyBoolVal.vNone ∧
      is_logged_in rem w sid ≠ PyBoolVal.vBool false) ∧
    (∀ cid, (heapGet w sid).client = some cid →
      rem.probe (clientGet w cid).authToken (clientGet w cid).csrfToken
        = .error () →
      is_logged_in rem w sid = PyBoolVal.vBool false) := by
  constructor
  · intro h
    constructor <;> simp [is_logged_in, h]
  · intro cid hc hp
    simp [is_logged_in, hc, hp]

/-- Witness for C10: the disconnected Session reports `None`, and a raising
probe on the connected Session reports the boolean `False`. -/
theorem is_logged_in_none_and_catches_witness :
    is_logged_in remOk wDisc 0 = PyBoolVal.vNone ∧
    is_logged_in remBad w0 0 = PyBoolVal.vBool false :=
  ⟨((is_logged_in_none_and_catches remOk wDisc 0).1 rfl).1,
   (is_logged_in_none_and_catches remBad w0 0).2 0 rfl rfl⟩

/-- C8: `handle_message` always resolves the portal by (conversation id,
owning account twid, conversation type) and always forwards the message
data together with its request id — also on retried deliveries, since the
handler behaves identically on every delivery of the event — and it
materializes a Matrix room first exactly when the portal has none. -/
theorem handle_message_routing
    (env : PortalEnv) (s : Session) (evt : MessageEntry) :
    PortalCall.getByTwid evt.conversationId s.twid evt.convType
        ∈ handle_message env s evt ∧
    PortalCall.handleMsg evt.messageData evt.requestId
        ∈ handle_message env s evt ∧
    ((env.getPortal evt.conversationId s.twid evt.convType).mxid = none →
      handle_message env s evt =
        [.getByTwid evt.conversationId s.twid evt.convType,
         .createRoom evt.conversationId,
         .handleMsg evt.messageData evt.requestId]) ∧
    (∀ r, (env.getPortal evt.conversationId s.twid evt.convType).mxid = some r →
      handle_message env s evt =
        [.getByTwid evt.conversationId s.twid evt.convType,
         .handleMsg evt.messageData evt.requestId]) := by
  refine ⟨?_, ?_, ?_, ?_⟩
  · simp [handle_message]
  · simp [handle_message]
  · intro h
    simp [handle_message, h]
  · intro r h
    simp [handle_message, h]

/-- Witness for C8: a room-less portal triggers room materialization before
the forward; a portal with a room gets the forward directly; the request id
is forwarded in both cases. -/
theorem handle_message_routing_witness :
    handle_message portalRoomless s0 evt0 =
      [.getByTwid 77 (some 555) 1, .createRoom 77, .handleMsg 88 99] ∧
    handle_message portalWithRoom s0 evt0 =
      [.getByTwid 77 (some 555) 1, .handleMsg 88 99] :=
  ⟨(handle_message_routing portalRoomless s0 evt0).2.2.1 rfl,
   (handle_message_routing portalWithRoom s0 evt0).2.2.2 5 rfl⟩

/-- Counterexample to C1: on the connected world `w0` (Session 0 bound to
twid 555) with a real-user puppet whose release raises, `logout` does not
fail soft: it raises, the registry still maps 555 to the Session, `twid`
and both credentials are still set, and nothing was persisted. -/
theorem logout_release_failure_counterexample :
    (logout envRaise w0 0).1 = true ∧
    (heapGet (logout envRaise w0 0).2 0).twid = some 555 ∧
    (heapGet (logout envRaise w0 0).2 0).authToken = some 10 ∧
    (heapGet (logout envRaise w0 0).2 0).csrfToken = some 11 ∧
    lookupA (logout envRaise w0 0).2.byTwid 555 = some 0 ∧
    (logout envRaise w0 0).2.db = w0.db := by
  decide

/-- C1 (amended): the puppet release of `logout` is attempted before local
state is cleared, but it does not fail soft — when the release raises, the
error propagates and logout aborts with the remote-id registry entry, the
Session fields and the persisted record all untouched; only when the
release does not raise does logout remove the registry entry, clear the
fields, and persist the cleared record. -/
theorem logout_release_failure_aborts
    (env : PuppetEnv) (w : World) (sid : Nat) (s : Session)
    (hs : lookupA w.heap sid = some s) :
    (logoutRaises env s = true →
      (logout env w sid).1 = true ∧
      heapGet (logout env w sid).2 sid = s ∧
      (logout env w sid).2.byTwid = w.byTwid ∧
      (logout env w sid).2.db = w.db) ∧
    (logoutRaises env s = false →
      (logout env w sid).1 = false ∧
      heapGet (logout env w sid).2 sid = clearSession s ∧
      (∀ t, s.twid = some t →
        lookupA (logout env w sid).2.byTwid t = none) ∧
      (logout env w sid).2.db = dbUpdate w.db (clearSession s)) := by
  constructor
  · intro hr
    obtain ⟨h1, h2, h3, _, h5⟩ := logout_raise_char env w sid s hs hr
    exact ⟨h1, h2, h3, h5⟩
  · intro hr
    exact logout_ok_char env w sid s hs hr

/-- Witness for C1 (amended): both branches evaluated on the connected
world — the raising release aborts logout, the successful release clears
and persists. -/
theorem logout_release_failure_aborts_witness :
    ((logout envRaise w0 0).1 = true ∧
      heapGet (logout envRaise w0 0).2 0 = s0 ∧
      (logout envRaise w0 0).2.byTwid = w0.byTwid ∧
      (logout envRaise w0 0).2.db = w0.db) ∧
    ((logout envOk w0 0).1 = false ∧
      heapGet (logout envOk w0 0).2 0 = clearSession s0 ∧
      (∀ t, s0.twid = some t →
        lookupA (logout envOk w0 0).2.byTwid t = none) ∧
      (logout envOk w0 0).2.db = dbUpdate w0.db (clearSession s0)) :=
  ⟨(logout_release_failure_aborts envRaise w0 0 s0 rfl).1 rfl,
   (logout_release_failure_aborts envOk w0 0 s0 rfl).2 rfl⟩

/-- C4: after a non-raising `logout` on a Session bound to remote id `r`
whose persisted rows for `r` all belong to this account, `is_logged_in`
reports a falsy value and `get_by_twid r` reports not-found: the registry
entry for `r` was removed and the persisted row no longer carries `r`. -/
theorem logout_unbinds_remote_id
    (env : PuppetEnv) (rem : Remote) (w : World) (sid : Nat)
    (s : Session) (r : Nat)
    (hs : lookupA w.heap sid = some s)
    (ht : s.twid = some r)
    (hr : logoutRaises env s = false)
    (hdb : ∀ rec ∈ w.db, rec.twid = some r → rec.mxid = s.mxid) :
    (logout env w sid).1 = false ∧
    (is_logged_in rem (logout env w sid).2 sid).truthy = false ∧
    (get_by_twid (logout env w sid).2 r).1 = none := by
  obtain ⟨h1, h2, h3, h4⟩ := logout_ok_char env w sid s hs hr
  refine ⟨h1, ?_, ?_⟩
  · simp [is_logged_in, h2, clearSession, PyBoolVal.truthy]
  · have hfind : dbGetByTwid (logout env w sid).2.db r = none := by
      rw [h4]
      unfold dbGetByTwid dbUpdate
      rw [List.find?_eq_none]
      intro x hx
      obtain ⟨rec, hrec, hfx⟩ := List.mem_map.mp hx
      have hcs : (clearSession s).mxid = s.mxid := rfl
      rw [hcs] at hfx
      by_cases hm : rec.mxid = s.mxid
      · rw [if_pos hm] at hfx
        subst hfx
        simp [clearSession, Session.toDBRec]
      · rw [if_neg hm] at hfx
        subst hfx
        intro hcon
        exact hm (hdb rec hrec (by simpa using hcon))
    have hlook : lookupA (logout env w sid).2.byTwid r = none := h3 r ht
    simp [get_by_twid, hlook, hfind]

/-- Witness for C4: concrete logout on the connected world; afterwards the
login check is falsy and the remote lookup finds nothing. -/
theorem logout_unbinds_remote_id_witness :
    (logout envOk w0 0).1 = false ∧
    (is_logged_in remOk (logout envOk w0 0).2 0).truthy = false ∧
    (get_by_twid (logout envOk w0 0).2 555).1 = none :=
  logout_unbinds_remote_id envOk remOk w0 0 s0 555 rfl rfl rfl
    (by decide)

/-- Counterexample to C2: on the connected world `w0`, `stop` tears the
stream down but does not clear the connection-handle field — the Session
still references client 0 afterwards. -/
theorem stop_keeps_handle_counterexample :
    (heapGet (stop w0 0) 0).client = some 0 ∧
    (clientGet (stop w0 0) 0).stopped = true := by
  decide

/-- C2 (amended): `stop` with a live connection handle tears the stream
down (the client is marked stopped, its tokens and cursor untouched) but
keeps the handle field set, and persists the handle's current credentials
and cursor; `stop` with no live handle leaves the Session object and the
client store unchanged (re-persisting the record as-is); and `stop` is
idempotent: a second `stop` leaves the entire world unchanged. -/
theorem stop_tears_down_but_keeps_handle
    (w : World) (sid : Nat) (s : Session)
    (hs : lookupA w.heap sid = some s) :
    (∀ cid, s.client = some cid →
      (clientGet (stop w sid) cid).stopped = true ∧
      (heapGet (stop w sid) sid).client = some cid ∧
      (heapGet (stop w sid) sid).authToken = (clientGet w cid).authToken ∧
      (heapGet (stop w sid) sid).pollCursor = (clientGet w cid).pollCursor ∧
      (stop w sid).db = dbUpdate w.db (heapGet (stop w sid) sid)) ∧
    (s.client = none →
      heapGet (stop w sid) sid = s ∧
      (stop w sid).clients = w.clients ∧
      (stop w sid).db = dbUpdate w.db s) ∧
    stop (stop w sid) sid = stop w sid := by
  have hG : heapGet w sid = s := by simp [heapGet, hs]
  refine ⟨?_, ?_, ?_⟩
  · intro cid hc
    simp [stop, update, clientModify, heapSet, heapGet, clientGet, hG, hc,
          hs, lookupA_insertA_self]
  · intro hc
    simp [stop, update, clientModify, heapSet, heapGet, hG, hc, hs,
          lookupA_insertA_self]
  · rcases hc : s.client with _ | cid <;>
      simp [stop, update, clientModify, heapSet, heapGet, clientGet, hG, hc,
            hs, lookupA_insertA_self, insertA_insertA, dbUpdate_idem]

/-- Witness for C2 (amended): evaluated on the connected world (live
handle) and on the never-connected world (no handle). -/
theorem stop_tears_down_but_keeps_handle_witness :
    ((clientGet (stop w0 0) 0).stopped = true ∧
      (heapGet (stop w0 0) 0).client = some 0 ∧
      (heapGet (stop w0 0) 0).authToken = (clientGet w0 0).authToken ∧
      (heapGet (stop w0 0) 0).pollCursor = (clientGet w0 0).pollCursor ∧
      (stop w0 0).db = dbUpdate w0.db (heapGet (stop w0 0) 0)) ∧
    (heapGet (stop wDisc 0) 0 = newSession 1 ∧
      (stop wDisc 0).clients = wDisc.clients ∧
      (stop wDisc 0).db = dbUpdate wDisc.db (newSession 1)) ∧
    stop (stop w0 0) 0 = stop w0 0 :=
  ⟨(stop_tears_down_but_keeps_handle w0 0 s0 rfl).1 0 rfl,
   (stop_tears_down_but_keeps_handle wDisc 0 (newSession 1) rfl).2.1 rfl,
   (stop_tears_down_but_keeps_handle w0 0 s0 rfl).2.2⟩

/-- Counterexample to C5: on the connected world `w0` (Session 0 holding
live client 0, never stopped), a second successful `connect` replaces the
Session's handle with the freshly allocated client 1 while client 0 is
still not stopped — the previous handle was not torn down first. -/
theorem connect_leaks_handle_counterexample :
    (heapGet w0 0).client = some 0 ∧
    (clientGet w0 0).stopped = false ∧
    (connect remOk w0 0 none none).1 = false ∧
    (heapGet (connect remOk w0 0 none none).2.1 0).client = some 1 ∧
    (clientGet (connect remOk w0 0 none none).2.1 0).stopped = false := by
  decide

/-- C5 (amended): a successful `connect` on an already-connected Session
replaces the connection handle with the newly allocated client without
tearing down the previous one — the old client record is left exactly as it
was (in particular not stopped) — so the at-most-one-live-handle invariant
is not enforced by `connect` and must be maintained by its callers. -/
theorem connect_replaces_handle_without_teardown
    (rem : Remote) (w : World) (sid : Nat) (a c : Option Nat) (s : Session)
    (cid0 : Nat) (id0 : Option Nat)
    (hs : lookupA w.heap sid = some s)
    (_hc : s.client = some cid0)
    (hne : cid0 ≠ w.nextClient)
    (hp : rem.probe (pyOr a s.authToken) (pyOr c s.csrfToken) = .ok id0) :
    (connect rem w sid a c).1 = false ∧
    (heapGet (connect rem w sid a c).2.1 sid).client = some w.nextClient ∧
    clientGet (connect rem w sid a c).2.1 cid0 = clientGet w cid0 := by
  have hG : heapGet w sid = s := by simp [heapGet, hs]
  have hlk : ∀ (l : List (Nat × Client)) (v : Client),
      lookupA (insertA l w.nextClient v) cid0 = lookupA l cid0 :=
    fun l v => lookupA_insertA_ne l _ _ v hne
  rcases ht : optTruthy s.twid <;>
    simp [connect, update, clientModify, heapSet, heapGet, clientGet, hG,
          hs, hp, ht, lookupA_insertA_self, insertA_insertA, hlk]

/-- Witness for C5 (amended): applied to the connected world, where the old
handle is client 0 and the fresh one is client 1. -/
theorem connect_replaces_handle_without_teardown_witness :
    (connect remOk w0 0 none none).1 = false ∧
    (heapGet (connect remOk w0 0 none none).2.1 0).client = some w0.nextClient ∧
    clientGet (connect remOk w0 0 none none).2.1 0 = clientGet w0 0 :=
  connect_replaces_handle_without_teardown remOk w0 0 none none s0 0
    (some 555) rfl rfl (by decide) rfl

/-- Whenever `get_by_mxid` returns a Session, the cache afterwards maps the
requested mxid to exactly that Session. -/
theorem get_by_mxid_cached (w : World) (m : Nat) (c : Bool) (sid : Nat)
    (w' : World) (h : get_by_mxid w m c = (some sid, w')) :
    lookupA w'.byMxid m = some sid := by
  rcases hl : lookupA w.byMxid m with _ | s1
  · rcases hd : dbGetByMxid w.db m with _ | rec
    · rcases hc : c
      · rw [hc] at h
        simp [get_by_mxid, hl, hd] at h
      · rw [hc] at h
        simp [get_by_mxid, hl, hd] at h
        obtain ⟨h1, h2⟩ := h
        subst h1
        subst h2
        simp [addToCache, heapGet, heapSet, optTruthy, lookupA_insertA_self,
              newSession]
    · have hm : rec.mxid = m := by
        have := List.find?_some hd
        simpa using this
      simp [get_by_mxid, hl, hd] at h
      obtain ⟨h1, h2⟩ := h
      subst h1
      subst h2
      by_cases htw : optTruthy rec.twid <;>
        simp [addToCache, heapGet, heapSet, htw, lookupA_insertA_self,
              recToSession, hm]
  · simp [get_by_mxid, hl] at h
    obtain ⟨h1, h2⟩ := h
    subst h1
    subst h2
    exact hl

/-- C6: `get_by_mxid` (the registry's local-id getter) — a cache hit
returns the cached Session with the world unchanged; a cache miss with a
persisted row deserializes, caches and returns it; a miss with no row and
`create` set constructs, persists, caches and returns a new Session; a miss
with no row and `create` unset reports not-found; and a repeated call after
any successful call returns the identical Session with the world unchanged
(no duplicate objects for a local id). -/
theorem get_by_mxid_registry (w : World) (m : Nat) (c : Bool) :
    (∀ sid, lookupA w.byMxid m = some sid →
      get_by_mxid w m c = (some sid, w)) ∧
    (∀ rec, lookupA w.byMxid m = none → dbGetByMxid w.db m = some rec →
      (get_by_mxid w m c).1 = some w.nextSession ∧
      heapGet (get_by_mxid w m c).2 w.nextSession = recToSession rec ∧
      lookupA (get_by_mxid w m c).2.byMxid m = some w.nextSession) ∧
    (lookupA w.byMxid m = none → dbGetByMxid w.db m = none →
      (get_by_mxid w m true).1 = some w.nextSession ∧
      heapGet (get_by_mxid w m true).2 w.nextSession = newSession m ∧
      lookupA (get_by_mxid w m true).2.byMxid m = some w.nextSession ∧
      (newSession m).toDBRec ∈ (get_by_mxid w m true).2.db) ∧
    (lookupA w.byMxid m = none → dbGetByMxid w.db m = none →
      get_by_mxid w m false = (none, w)) ∧
    (∀ sid w', get_by_mxid w m c = (some sid, w') →
      ∀ c', get_by_mxid w' m c' = (some sid, w')) := by
  refine ⟨?_, ?_, ?_, ?_, ?_⟩
  · intro sid h
    simp [get_by_mxid, h]
  · intro rec hl hd
    have hm : rec.mxid = m := by
      have := List.find?_some hd
      simpa using this
    by_cases htw : optTruthy rec.twid <;>
      simp [get_by_mxid, hl, hd, addToCache, heapGet, heapSet, htw,
            lookupA_insertA_self, recToSession, hm]
  · intro hl hd
    simp [get_by_mxid, hl, hd, addToCache, heapGet, heapSet, optTruthy,
          lookupA_insertA_self, newSession, dbInsert, Session.toDBRec]
  · intro hl hd
    simp [get_by_mxid, hl, hd]
  · intro sid w' h c'
    have hc := get_by_mxid_cached w m c sid w' h
    simp [get_by_mxid, hc]

/-- Witness for C6: the four branches on concrete worlds, plus the
idempotence of a repeated lookup after a cache hit. -/
theorem get_by_mxid_registry_witness :
    get_by_mxid w0 1 true = (some 0, w0) ∧
    ((get_by_mxid wDbOnly 1 true).1 = some 0 ∧
      heapGet (get_by_mxid wDbOnly 1 true).2 0 =
        recToSession ⟨1, some 555, some 10, some 11, some 7, none⟩ ∧
      lookupA (get_by_mxid wDbOnly 1 true).2.byMxid 1 = some 0) ∧
    ((get_by_mxid wEmpty 1 true).1 = some 0 ∧
      heapGet (get_by_mxid wEmpty 1 true).2 0 = newSession 1 ∧
      lookupA (get_by_mxid wEmpty 1 true).2.byMxid 1 = some 0 ∧
      (newSession 1).toDBRec ∈ (get_by_mxid wEmpty 1 true).2.db) ∧
    get_by_mxid wEmpty 1 false = (none, wEmpty) ∧
    get_by_mxid w0 1 false = (some 0, w0) :=
  ⟨(get_by_mxid_registry w0 1 true).1 0 rfl,
   (get_by_mxid_registry wDbOnly 1 true).2.1
     ⟨1, some 555, some 10, some 11, some 7, none⟩ rfl rfl,
   (get_by_mxid_registry wEmpty 1 true).2.2.1 rfl rfl,
   (get_by_mxid_registry wEmpty 1 false).2.2.2.1 rfl rfl,
   (get_by_mxid_registry w0 1 true).2.2.2.2 0 w0 rfl false⟩

/-- `_add_to_cache` never touches the session heap. -/
theorem addToCache_heap (w : World) (sid : Nat) :
    (addToCache w sid).heap = w.heap := by
  by_cases h : optTruthy (heapGet w sid).twid <;> simp [addToCache, h]

/-- `_add_to_cache` inserts the Session into the mxid cache under its mxid
(whatever it does to the twid cache). -/
theorem addToCache_byMxid (w : World) (sid : Nat) :
    (addToCache w sid).byMxid =
      insertA w.byMxid (heapGet w sid).mxid sid := by
  by_cases h : optTruthy (heapGet w sid).twid <;> simp [addToCache, h]

/-- The fresh-deserialization pass does not touch the mxid cache. -/
theorem allocRows_byMxid (rows : List DBRec) (w : World) :
    (allocRows w rows).2.byMxid = w.byMxid := by
  induction rows generalizing w with
  | nil => rfl
  | cons r t ih => simpa [allocRows] using ih _

/-- The fresh-deserialization pass only adds heap entries at fresh ids, so
lookups below the allocation counter are unchanged. -/
theorem allocRows_heap_preserve (rows : List DBRec) (w : World) (k : Nat)
    (hk : k < w.nextSession) :
    lookupA (allocRows w rows).2.heap k = lookupA w.heap k := by
  induction rows generalizing w with
  | nil => rfl
  | cons r t ih =>
    have hne : k ≠ w.nextSession := Nat.ne_of_lt hk
    have step := ih { w with
        heap := insertA w.heap w.nextSession (recToSession r),
        nextSession := w.nextSession + 1 }
      (Nat.lt_succ_of_lt hk)
    simpa [allocRows, lookupA_insertA_ne _ _ _ _ hne] using step

/-- Each returned row is deserialized into a fresh Session whose heap entry
holds exactly that row's data. -/
theorem allocRows_spec (rows : List DBRec) (w : World) (i : Nat) (r : DBRec)
    (hrow : rows.get? i = some r) :
    ∃ sid, (allocRows w rows).1.get? i = some sid ∧
      lookupA (allocRows w rows).2.heap sid = some (recToSession r) := by
  induction rows generalizing w i with
  | nil => simp at hrow
  | cons r0 t ih =>
    rcases i with _ | i
    · refine ⟨w.nextSession, ?_, ?_⟩
      · simp [allocRows]
      · have hr0 : r0 = r := by simpa using hrow
        subst hr0
        have hpre := allocRows_heap_preserve t
          { w with heap := insertA w.heap w.nextSession (recToSession r0),
                   nextSession := w.nextSession + 1 }
          w.nextSession (Nat.lt_succ_self _)
        simp [allocRows, hpre, lookupA_insertA_self]
    · have hrow' : t.get? i = some r := by simpa using hrow
      obtain ⟨sid, h1, h2⟩ := ih
        { w with heap := insertA w.heap w.nextSession (recToSession r0),
                 nextSession := w.nextSession + 1 } i hrow'
      exact ⟨sid, by simpa [allocRows] using h1, by simpa [allocRows] using h2⟩

/-- The cache-preference loop: if the mxid cache already maps the mxid of
the i-th Session to a cached instance, the i-th result is that cached
instance. -/
theorem allLoggedInLoop_spec (sids : List Nat) (w : World) (i sid m v : Nat)
    (hsid : sids.get? i = some sid)
    (hm : (heapGet w sid).mxid = m)
    (hv : lookupA w.byMxid m = some v) :
    (allLoggedInLoop w sids).1.get? i = some v := by
  induction sids generalizing w i with
  | nil => simp at hsid
  | cons sid0 t ih =>
    rcases i with _ | i
    · have hs0 : sid0 = sid := by simpa using hsid
      subst hs0
      simp [allLoggedInLoop, hm, hv]
    · have hsid' : t.get? i = some sid := by simpa using hsid
      rcases hx : lookupA w.byMxid (heapGet w sid0).mxid with _ | cs
      · have hmm : (heapGet w sid0).mxid ≠ m := by
          intro hcon
          rw [hcon, hv] at hx
          exact Option.noConfusion hx
        have hm1 : (heapGet (addToCache w sid0) sid0).mxid =
            (heapGet w sid0).mxid := by
          simp [heapGet, addToCache_heap]
        have hmkeep : (heapGet (addToCache w sid0) sid).mxid = m := by
          simpa [heapGet, addToCache_heap] using hm
        have hvkeep : lookupA (addToCache w sid0).byMxid m = some v := by
          rw [addToCache_byMxid]
          rw [lookupA_insertA_ne _ _ _ _ (Ne.symm hmm)]
          exact hv
        have := ih (addToCache w sid0) i hsid' hmkeep hvkeep
        simpa [allLoggedInLoop, hx] using this
      · have := ih w i hsid' hm hv
        simpa [allLoggedInLoop, hx] using this

/-- C9: whenever the mxid cache already holds a Session for the local id of
the i-th row returned by the credential scan, the i-th element of
`all_logged_in` is that cached instance, not the freshly deserialized one —
the result never introduces a second Session object for a cached local
id. -/
theorem all_logged_in_prefers_cached (w : World) (i : Nat) (r : DBRec)
    (v : Nat)
    (hrow : (dbAllWithCredentials w.db).get? i = some r)
    (hcache : lookupA w.byMxid r.mxid = some v) :
    (all_logged_in w).1.get? i = some v := by
  obtain ⟨sid, hsid, hheap⟩ :=
    allocRows_spec (dbAllWithCredentials w.db) w i r hrow
  have hm : (heapGet (allocRows w (dbAllWithCredentials w.db)).2 sid).mxid
      = r.mxid := by
    simp [heapGet, hheap, recToSession]
  have hv : lookupA (allocRows w (dbAllWithCredentials w.db)).2.byMxid r.mxid
      = some v := by
    rw [allocRows_byMxid]
    exact hcache
  have := allLoggedInLoop_spec (allocRows w (dbAllWithCredentials w.db)).1
    (allocRows w (dbAllWithCredentials w.db)).2 i sid r.mxid v hsid hm hv
  simpa [all_logged_in] using this

/-- Witness for C9: on the connected world the only credentialed row is the
cached Session's own row, and the scan returns the cached instance. -/
theorem all_logged_in_prefers_cached_witness :
    (all_logged_in w0).1.get? 0 = some 0 :=
  all_logged_in_prefers_cached w0 0 ⟨1, some 555, some 10, some 11, some 7, none⟩
    0 rfl rfl

/-- C7: a successful `connect` performs the display-handle lookup that
binds `twid` only when `twid` is still unset — a Session whose `twid` is
already truthy keeps it unchanged, makes no `lookup_users` call, and leaves
the remote registry untouched — while an unset `twid` is bound via the
lookup and inserted into the remote registry; afterwards `get_by_twid` on
the bound remote id and `get_by_mxid` on the local id both resolve to this
same Session. -/
theorem connect_binds_identity
    (rem : Remote) (w : World) (sid : Nat) (a c : Option Nat) (s : Session)
    (id0 : Option Nat)
    (hs : lookupA w.heap sid = some s)
    (hp : rem.probe (pyOr a s.authToken) (pyOr c s.csrfToken) = .ok id0)
    (hm : lookupA w.byMxid s.mxid = some sid) :
    (connect rem w sid a c).1 = false ∧
    (get_by_mxid (connect rem w sid a c).2.1 s.mxid true).1 = some sid ∧
    (optTruthy s.twid = true →
      (heapGet (connect rem w sid a c).2.1 sid).twid = s.twid ∧
      (connect rem w sid a c).2.2 =
        [.probeCall, .getSettings, .startStream] ∧
      (connect rem w sid a c).2.1.byTwid = w.byTwid ∧
      (∀ t, s.twid = some t → lookupA w.byTwid t = some sid →
        (get_by_twid (connect rem w sid a c).2.1 t).1 = some sid)) ∧
    (optTruthy s.twid = false →
      (heapGet (connect rem w sid a c).2.1 sid).twid =
        some (rem.lookup rem.screenName) ∧
      (connect rem w sid a c).2.2 =
        [.probeCall, .getSettings, .lookupUsers rem.screenName,
         .startStream] ∧
      lookupA (connect rem w sid a c).2.1.byTwid (rem.lookup rem.screenName)
        = some sid ∧
      (get_by_twid (connect rem w sid a c).2.1
        (rem.lookup rem.screenName)).1 = some sid) := by
  have hG : heapGet w sid = s := by simp [heapGet, hs]
  cases ht : optTruthy s.twid with
  | true =>
    refine ⟨?_, ?_, ?_, ?_⟩
    · simp [connect, hG, hp, ht]
    · simp [get_by_mxid, connect, update, clientModify, heapSet, heapGet,
            clientGet, hG, hs, hp, ht, hm, lookupA_insertA_self,
            insertA_insertA]
    · intro _
      refine ⟨?_, ?_, ?_, ?_⟩
      · simp [connect, update, clientModify, heapSet, heapGet, clientGet,
              hG, hs, hp, ht, lookupA_insertA_self, insertA_insertA]
      · simp [connect, hG, hp, ht]
      · simp [connect, update, clientModify, heapSet, heapGet, clientGet,
              hG, hs, hp, ht, lookupA_insertA_self, insertA_insertA]
      · intro t htw hbt
        simp [get_by_twid, connect, update, clientModify, heapSet, heapGet,
              clientGet, hG, hs, hp, ht, hbt, lookupA_insertA_self,
              insertA_insertA]
    · intro hcon
      exact Bool.noConfusion hcon
  | false =>
    refine ⟨?_, ?_, ?_, ?_⟩
    · simp [connect, hG, hp, ht]
    · simp [get_by_mxid, connect, update, clientModify, heapSet, heapGet,
            clientGet, hG, hs, hp, ht, hm, lookupA_insertA_self,
            insertA_insertA]
    · intro hcon
      exact Bool.noConfusion hcon
    · intro _
      refine ⟨?_, ?_, ?_, ?_⟩
      · simp [connect, update, clientModify, heapSet, heapGet, clientGet,
              hG, hs, hp, ht, lookupA_insertA_self, insertA_insertA]
      · simp [connect, hG, hp, ht]
      · simp [connect, update, clientModify, heapSet, heapGet, clientGet,
              hG, hs, hp, ht, lookupA_insertA_self, insertA_insertA]
      · simp [get_by_twid, connect, update, clientModify, heapSet, heapGet,
              clientGet, hG, hs, hp, ht, lookupA_insertA_self,
              insertA_insertA]

/-- Witness for C7: exercised on the already-bound connected world (twid
kept, no lookup call, same-object resolution through both indices) and on
the never-bound world (twid bound through the lookup and registered). -/
theorem connect_binds_identity_witness :
    ((connect remOk w0 0 none none).1 = false ∧
      (get_by_mxid (connect remOk w0 0 none none).2.1 1 true).1 = some 0 ∧
      (heapGet (connect remOk w0 0 none none).2.1 0).twid = some 555 ∧
      (connect remOk w0 0 none none).2.2 =
        [.probeCall, .getSettings, .startStream] ∧
      (get_by_twid (connect remOk w0 0 none none).2.1 555).1 = some 0) ∧
    ((connect remOk wDisc 0 (some 10) (some 11)).1 = false ∧
      (heapGet (connect remOk wDisc 0 (some 10) (some 11)).2.1 0).twid =
        some 555 ∧
      (connect remOk wDisc 0 (some 10) (some 11)).2.2 =
        [.probeCall, .getSettings, .lookupUsers 20, .startStream] ∧
      (get_by_twid (connect remOk wDisc 0 (some 10) (some 11)).2.1 555).1 =
        some 0 ∧
      (get_by_mxid (connect remOk wDisc 0 (some 10) (some 11)).2.1 1 true).1 =
        some 0) := by
  have h0 := connect_binds_identity remOk w0 0 none none s0 (some 555)
    rfl rfl rfl
  have h1 := connect_binds_identity remOk wDisc 0 (some 10) (some 11)
    (newSession 1) (some 555) rfl rfl rfl
  obtain ⟨a0, b0, c0h, _⟩ := h0
  obtain ⟨ta, tb, tc, td⟩ := c0h rfl
  obtain ⟨a1, b1, _, d1⟩ := h1
  obtain ⟨ua, ub, _, ud⟩ := d1 rfl
  exact ⟨⟨a0, b0, ta, tb, td 555 rfl rfl⟩, ⟨a1, ua, ub, ud, b1⟩⟩

end MautrixTwitter
